import Mathlib

/-!
metacd-http: control plane of the HTTP gateway.

A shallow embedding of `src/server/metacd_http.c`: the prefix dispatcher
(`handler_action`), the validation predicates (`validate_namespace`,
`validate_srvtype`), the two refresh tasks of the configuration cache
(`_task_reload_nsinfo`, `_task_reload_srvtypes`), the configuration step
(`grid_main_configure`), the start-up step (`grid_main_action`) and the
shutdown step (`grid_main_specific_fini`).

Conventions of the embedding.

* A C string is the list of its bytes before the terminating NUL (`CStr`).
  A NULL-terminated array is the list of its entries before the terminator.
* A pointer that may be NULL is an `Option`.
* The file-scope variables of the C file are the fields of `Globals`; a C
  function that writes them takes a `Globals` and returns the new one.
* Calls into the libraries the file links against (the task queue, the
  network server, the resolver, the load-balancer pool) are recorded, in
  program order, as a list of `Op`; what such a call returns to the program
  is an input of the embedded function.
* Logging calls (`GRID_WARN`, `GRID_ERROR`, ...) have no effect on the state
  modelled here and are left out.
-/

namespace MetacdHttp

/-! ## C strings -/

/-- A C string: its bytes before the terminating NUL. -/
abbrev CStr := List Char

/-- The libc `strlen`. -/
def strlen (s : CStr) : Nat := s.length

/-- The libc `strcmp`: the sign of the first differing byte (compared as
unsigned), the end of a string comparing as the NUL byte. -/
def strcmp : CStr → CStr → Int
  | [], [] => 0
  | [], _ :: _ => -1
  | _ :: _, [] => 1
  | a :: s1, b :: s2 =>
    if a = b then strcmp s1 s2 else if a.toNat < b.toNat then -1 else 1

/-- The libc `strncmp`: as `strcmp`, over at most `n` bytes. -/
def strncmp : CStr → CStr → Nat → Int
  | _, _, 0 => 0
  | [], [], _ + 1 => 0
  | [], _ :: _, _ + 1 => -1
  | _ :: _, [], _ + 1 => 1
  | a :: s1, b :: s2, n + 1 =>
    if a = b then strncmp s1 s2 n else if a.toNat < b.toNat then -1 else 1

/-- GLib's `g_str_has_prefix (str, prefix)`: the lengths are compared, then
`strncmp (str, prefix, strlen (prefix)) == 0`. -/
def g_str_has_prefix (str pfx : CStr) : Bool :=
  if strlen str < strlen pfx then false
  else strncmp str pfx (strlen pfx) == 0

/-! ## The dispatcher -/

/-- The request, as far as `handler_action` reads it: `rq->req_uri`. -/
structure http_request_s where
  req_uri : CStr

/-- One entry of the route table, `struct action_s`. The field `pfx` is the
C field `prefix`. `Rp` is the reply context, `ρ` what a hook produces (its
return code together with whatever it did to the reply). -/
structure action_s (Rp ρ : Type) where
  pfx : CStr
  hook : http_request_s → Rp → CStr → ρ

/-- The five hooks of the included action files (`lb_actions.c`,
`m2_actions.c`, `cs_actions.c`, `dir_actions.c`, `cache_actions.c`). -/
structure ActionHooks (Rp ρ : Type) where
  action_loadbalancing : http_request_s → Rp → CStr → ρ
  action_meta2 : http_request_s → Rp → CStr → ρ
  action_conscience : http_request_s → Rp → CStr → ρ
  action_directory : http_request_s → Rp → CStr → ρ
  action_cache : http_request_s → Rp → CStr → ρ

/-- The table `actions[]`, in its source order, without the `{NULL, NULL}`
terminator. -/
def actions {Rp ρ : Type} (h : ActionHooks Rp ρ) : List (action_s Rp ρ) :=
  [ ⟨"lb/sl/".toList, h.action_loadbalancing⟩,
    ⟨"m2/".toList, h.action_meta2⟩,
    ⟨"cs/".toList, h.action_conscience⟩,
    ⟨"dir/".toList, h.action_directory⟩,
    ⟨"cache/".toList, h.action_cache⟩ ]

/-- The `for` loop of `handler_action` over the table, `path` being
`rq->req_uri + 1`: the first entry whose prefix `path` starts with has its
hook called with `path + strlen (pa->prefix)`; the loop falls through to
`_reply_no_handler (rp)`. -/
def handler_action_scan {Rp ρ : Type} (_reply_no_handler : Rp → ρ)
    (rq : http_request_s) (rp : Rp) (path : CStr) : List (action_s Rp ρ) → ρ
  | [] => _reply_no_handler rp
  | pa :: rest =>
    if g_str_has_prefix path pa.pfx then
      pa.hook rq rp (path.drop (strlen pa.pfx))
    else handler_action_scan _reply_no_handler rq rp path rest

/-- The function `handler_action`, over a route table `table` (the program
passes `actions`). `rq->req_uri + 1` lies beyond the terminator when the URI
is empty: the C behaviour is undefined there and the embedding returns
`none`. -/
def handler_action {Rp ρ : Type} (table : List (action_s Rp ρ))
    (_reply_no_handler : Rp → ρ) (rq : http_request_s) (rp : Rp) : Option ρ :=
  match rq.req_uri with
  | [] => none
  | _ :: path => some (handler_action_scan _reply_no_handler rq rp path table)

/-- What a recording hook leaves behind: which handler ran, and on which
URI remainder. Used to observe the dispatcher on concrete tables. -/
inductive Invocation where
  | handler (name : String) (uri : CStr)
  | no_handler
  deriving DecidableEq, Repr

/-- A route whose hook records its own prefix and the remainder it got. -/
def recording_route (p : String) : action_s Unit Invocation :=
  ⟨p.toList, fun _ _ uri => Invocation.handler p uri⟩

/-- The program's hooks, each recording its own name. -/
def recording_hooks : ActionHooks Unit Invocation where
  action_loadbalancing := fun _ _ uri => Invocation.handler "action_loadbalancing" uri
  action_meta2 := fun _ _ uri => Invocation.handler "action_meta2" uri
  action_conscience := fun _ _ uri => Invocation.handler "action_conscience" uri
  action_directory := fun _ _ uri => Invocation.handler "action_directory" uri
  action_cache := fun _ _ uri => Invocation.handler "action_cache" uri

/-! ## The file-scope state -/

/-- A `GError`. -/
structure GError where
  code : Int
  message : CStr
  deriving DecidableEq, Repr

/-- The namespace descriptor `struct namespace_info_s`, as far as this file
touches its fields (`name`, `chunk_size`); `others` stands for the remaining
tables of the descriptor, as key and raw value. -/
structure namespace_info_s where
  name : CStr
  chunk_size : Int
  others : List (CStr × CStr)
  deriving DecidableEq, Repr

/-- The descriptor after `memset (&nsinfo, 0, sizeof (nsinfo))`. -/
def namespace_info_s.zero : namespace_info_s := ⟨[], 0, []⟩

/-- The resolver, as far as this file configures it: its four limits. -/
structure hc_resolver_s where
  ttl_csm0 : Nat
  max_csm0 : Nat
  ttl_services : Nat
  max_services : Nat
  deriving DecidableEq, Repr

/-- The load-balancer pool, created for a namespace. -/
structure grid_lbpool_s where
  ns : CStr
  deriving DecidableEq, Repr

/-- The HTTP dispatcher, built from the names of the request descriptors. -/
structure http_request_dispatcher_s where
  requests : List CStr
  deriving DecidableEq, Repr

/-- The network server, with the endpoints bound so far. -/
structure network_server_s where
  endpoints : List CStr
  deriving DecidableEq, Repr

/-- The maintenance thread's handle. -/
structure GThread where
  id : Nat
  deriving DecidableEq, Repr

/-- The four task functions of the file, as the `run` member of a
registered task. -/
inductive Task where
  | _task_expire_resolver
  | _task_reload_lbpool
  | _task_reload_srvtypes
  | _task_reload_nsinfo
  deriving DecidableEq, Repr

/-- The user-data pointer handed to `grid_task_queue_register`. -/
inductive Udata where
  | null
  | resolver
  | lbpool
  deriving DecidableEq, Repr

/-- One registered task: the arguments of one `grid_task_queue_register`
call (the cleanup argument is NULL in every call of the file). -/
structure grid_task_s where
  period : Nat
  run : Task
  udata : Udata
  deriving DecidableEq, Repr

/-- The task queue: its name and the tasks registered, in call order. -/
structure grid_task_queue_s where
  name : CStr
  tasks : List grid_task_s
  deriving DecidableEq, Repr

/-- The call `grid_task_queue_create (name)`: a queue with no task. -/
def grid_task_queue_create (name : CStr) : grid_task_queue_s := ⟨name, []⟩

/-- The call `grid_task_queue_register (gtq, period, run, NULL, udata)`: the
task is appended to the queue. -/
def grid_task_queue_register (gtq : grid_task_queue_s) (period : Nat)
    (run : Task) (udata : Udata) : grid_task_queue_s :=
  { gtq with tasks := gtq.tasks ++ [⟨period, run, udata⟩] }

/-- The file-scope variables of `metacd_http.c`. -/
structure Globals where
  dispatcher : Option http_request_dispatcher_s
  server : Option network_server_s
  nsname : Option CStr
  resolver : Option hc_resolver_s
  lbpool : Option grid_lbpool_s
  admin_gtq : Option grid_task_queue_s
  admin_thread : Option GThread
  nsinfo : namespace_info_s
  srvtypes : Option (List CStr)
  nsinfo_refresh_delay : Nat
  lb_refresh_delay : Int
  dir_low_ttl : Nat
  dir_low_max : Nat
  dir_high_ttl : Nat
  dir_high_max : Nat
  deriving DecidableEq, Repr

/-- The initialisers of the file-scope variables (`RESOLVD_DEFAULT_*` for
the four directory limits). -/
def Globals.initial : Globals where
  dispatcher := none
  server := none
  nsname := none
  resolver := none
  lbpool := none
  admin_gtq := none
  admin_thread := none
  nsinfo := namespace_info_s.zero
  srvtypes := none
  nsinfo_refresh_delay := 10
  lb_refresh_delay := 10
  dir_low_ttl := 3600
  dir_low_max := 200000
  dir_high_ttl := 0
  dir_high_max := 0

/-- The test `METACD_LB_ENABLED`, `(lb_refresh_delay >= 0)`. -/
def METACD_LB_ENABLED (g : Globals) : Bool := decide (0 ≤ g.lb_refresh_delay)

/-- The helpers of the metautils library that the file calls on the
namespace name and descriptor, taken as given.
`metautils_strlcpy_physical_ns d s dlen` is the content of the buffer `d`
after the call; `namespace_info_copy src dst` is `dst` after the copy;
`sizeof_nsinfo_name` is `sizeof (nsinfo.name)`. -/
structure Library where
  metautils_strlcpy_physical_ns : CStr → CStr → Nat → CStr
  namespace_info_copy : namespace_info_s → namespace_info_s → namespace_info_s
  namespace_info_clear : namespace_info_s → namespace_info_s
  sizeof_nsinfo_name : Nat

/-- One instance of `Library`, used to evaluate concrete runs (the general
statements hold for every `Library`): the physical namespace is the part of
the name before its first dot, cut to the buffer; a copy overwrites the
destination; a clear leaves the zeroed descriptor. -/
def metautils : Library where
  metautils_strlcpy_physical_ns := fun d s dlen =>
    if dlen = 0 then d else (s.takeWhile (fun c => c != '.')).take (dlen - 1)
  namespace_info_copy := fun src _ => src
  namespace_info_clear := fun _ => namespace_info_s.zero
  sizeof_nsinfo_name := 256

/-! ## Validation predicates -/

/-- The function `validate_namespace`: `0 == strcmp (ns, nsname)`. With
`nsname` still NULL the call dereferences NULL: `none`. -/
def validate_namespace (g : Globals) (ns : CStr) : Option Bool :=
  match g.nsname with
  | none => none
  | some nsname => some (strcmp ns nsname == 0)

/-- The loop of `validate_srvtype`,
`for (p = srvtypes; !rc && *p; ++p) rc = !strcmp (*p, n);`. -/
def validate_srvtype_scan (n : CStr) : List CStr → Bool → Bool
  | [], rc => rc
  | p :: ps, rc =>
    if rc then rc else validate_srvtype_scan n ps (strcmp p n == 0)

/-- The function `validate_srvtype`: false when `srvtypes` is NULL, else
the result of the scan (the lock is taken and released around it). -/
def validate_srvtype (g : Globals) (n : CStr) : Bool :=
  match g.srvtypes with
  | none => false
  | some arr => validate_srvtype_scan n arr false

/-! ## Administrative tasks -/

/-- What `list_namespace_service_types (nsname, &err)` gave back: the list
returned and the error slot. -/
structure srvtypes_fetch where
  l : List CStr
  err : Option GError
  deriving DecidableEq, Repr

/-- The call `metautils_list_to_array`: the elements of the list, in order,
as a NULL-terminated array. -/
def metautils_list_to_array (l : List CStr) : List CStr := l

/-- The function `_task_reload_nsinfo`, `fetched` being what
`get_namespace_info (nsname, &err)` returned (NULL on failure). -/
def _task_reload_nsinfo (lib : Library) (fetched : Option namespace_info_s)
    (g : Globals) : Globals :=
  match fetched with
  | none => g
  | some ni => { g with nsinfo := lib.namespace_info_copy ni g.nsinfo }

/-- The function `_task_reload_srvtypes`: returns early when the error slot
is set; otherwise the new array replaces `srvtypes` (the old one is freed
after the lock is released). -/
def _task_reload_srvtypes (fetched : srvtypes_fetch) (g : Globals) : Globals :=
  match fetched.err with
  | some _ => g
  | none => { g with srvtypes := some (metautils_list_to_array fetched.l) }

/-- One run of a registered task, with what its collaborator returned.
`_task_expire_resolver` and `_task_reload_lbpool` work inside the resolver
and the pool and write no file-scope variable. -/
inductive TaskRun where
  | expire_resolver
  | reload_lbpool (reconfigure reload : Option GError)
  | reload_srvtypes (fetched : srvtypes_fetch)
  | reload_nsinfo (fetched : Option namespace_info_s)
  deriving DecidableEq, Repr

/-- The effect of one task run on the file-scope variables. -/
def run_task (lib : Library) (t : TaskRun) (g : Globals) : Globals :=
  match t with
  | .expire_resolver => g
  | .reload_lbpool _ _ => g
  | .reload_srvtypes fetched => _task_reload_srvtypes fetched g
  | .reload_nsinfo fetched => _task_reload_nsinfo lib fetched g

/-- A sequence of task runs, in order. -/
def run_tasks (lib : Library) (ts : List TaskRun) (g : Globals) : Globals :=
  ts.foldl (fun acc t => run_task lib t acc) g

/-! ## Main callbacks -/

/-- The library calls of the start-up and shutdown callbacks, as recorded
in program order. -/
inductive Op where
  | network_server_open_servers
  | grid_task_queue_run
  | network_server_run
  | grid_main_set_status (status : Int)
  | grid_task_queue_stop
  | g_thread_join
  | grid_task_queue_destroy
  | network_server_close_servers
  | network_server_stop
  | network_server_clean
  | http_request_dispatcher_clean
  | grid_lbpool_destroy
  | hc_resolver_destroy
  | namespace_info_clear
  | metautils_str_clean
  deriving DecidableEq, Repr

/-- The function `_main_error`: the error is logged and cleared, and
`grid_main_set_status (1)` is called. The result is the calls made and the
process status after them. -/
def _main_error (_err : GError) (_status : Int) : List Op × Int :=
  ([Op.grid_main_set_status 1], 1)

/-- What the three library calls of `grid_main_action` return: an error or
NULL for the two server calls, the thread or an error for the queue. -/
structure ActionEnv where
  network_server_open_servers : Option GError
  grid_task_queue_run : Except GError GThread
  network_server_run : Option GError

/-- GLib's `g_prefix_error`: the text is put in front of the message. -/
def g_prefix_error (err : GError) (text : CStr) : GError :=
  { err with message := text ++ err.message }

/-- The function `grid_main_action`: the calls made, the file-scope
variables and the process status after it. -/
def grid_main_action (env : ActionEnv) (g : Globals) (status : Int) :
    List Op × Globals × Int :=
  match env.network_server_open_servers with
  | some err =>
    let r := _main_error err status
    (Op.network_server_open_servers :: r.1, g, r.2)
  | none =>
    match env.grid_task_queue_run with
    | .error err =>
      let r := _main_error
        ( g_prefix_error err "Admin thread startup failure: ".toList) status
      ([Op.network_server_open_servers, Op.grid_task_queue_run] ++ r.1,
        { g with admin_thread := none }, r.2)
    | .ok thread =>
      let g1 := { g with admin_thread := some thread }
      match env.network_server_run with
      | some err =>
        let r := _main_error err status
        ([Op.network_server_open_servers, Op.grid_task_queue_run,
          Op.network_server_run] ++ r.1, g1, r.2)
      | none =>
        ([Op.network_server_open_servers, Op.grid_task_queue_run,
          Op.network_server_run], g1, status)

/-- The function `grid_main_specific_fini`: each block runs when its
variable is not NULL and leaves it NULL; the calls are recorded in program
order. -/
def grid_main_specific_fini (lib : Library) (g : Globals) : List Op × Globals :=
  let t1 := if g.admin_thread.isSome then
    [Op.grid_task_queue_stop, Op.g_thread_join] else []
  let t2 := if g.admin_gtq.isSome then [Op.grid_task_queue_destroy] else []
  let t3 := if g.server.isSome then
    [Op.network_server_close_servers, Op.network_server_stop,
      Op.network_server_clean] else []
  let t4 := if g.dispatcher.isSome then [Op.http_request_dispatcher_clean] else []
  let t5 := if g.lbpool.isSome then [Op.grid_lbpool_destroy] else []
  let t6 := if g.resolver.isSome then [Op.hc_resolver_destroy] else []
  (t1 ++ t2 ++ t3 ++ t4 ++ t5 ++ t6 ++
      [Op.namespace_info_clear, Op.metautils_str_clean],
    { g with
      admin_thread := none
      admin_gtq := none
      server := none
      dispatcher := none
      lbpool := none
      resolver := none
      nsinfo := lib.namespace_info_clear g.nsinfo
      nsname := none })

/-- The function `grid_main_specific_stop`. -/
def grid_main_specific_stop (g : Globals) : List Op :=
  (if g.admin_gtq.isSome then [Op.grid_task_queue_stop] else []) ++
    (if g.server.isSome then [Op.network_server_stop] else [])

/-- The calls of shutdown that release or destroy something. -/
def Op.releases : Op → Bool
  | .grid_task_queue_destroy => true
  | .network_server_close_servers => true
  | .network_server_clean => true
  | .http_request_dispatcher_clean => true
  | .grid_lbpool_destroy => true
  | .hc_resolver_destroy => true
  | .namespace_info_clear => true
  | .metautils_str_clean => true
  | _ => false

/-- What the library calls of `grid_main_configure` return or do:
`hc_resolver_create ()` (tested against NULL by the code), and the task runs
that `grid_task_queue_fire (admin_gtq)` performs, each with what its
collaborator returned. -/
structure ConfigureEnv where
  hc_resolver_create : Option hc_resolver_s
  fired : List TaskRun

/-- The cast `(guint) lb_refresh_delay` of a `gint`. -/
def guint_of_gint (i : Int) : Nat := (i % 4294967296).toNat

/-- The function `grid_main_configure`, `argv` being the positional
arguments (`argc` is their number): the value returned and the file-scope
variables after it. -/
def grid_main_configure (lib : Library) (env : ConfigureEnv)
    (argv : List CStr) (g : Globals) : Bool × Globals :=
  match argv with
  | [argv0, argv1] =>
    let nsname := lib.metautils_strlcpy_physical_ns argv1 argv1 (strlen argv1 + 1)
    let nsinfo : namespace_info_s :=
      { namespace_info_s.zero with
        name := lib.metautils_strlcpy_physical_ns [] argv1 lib.sizeof_nsinfo_name
        chunk_size := 1 }
    let dispatcher : http_request_dispatcher_s := ⟨["action".toList]⟩
    let server : network_server_s := ⟨[]⟩
    let resolver := env.hc_resolver_create.map (fun _ =>
      ({ ttl_csm0 := g.dir_high_ttl, max_csm0 := g.dir_high_max,
         ttl_services := g.dir_low_ttl, max_services := g.dir_low_max } : hc_resolver_s))
    let lbpool : grid_lbpool_s := ⟨nsname⟩
    let q0 := grid_task_queue_create "admin".toList
    let q1 := grid_task_queue_register q0 1 Task._task_expire_resolver Udata.resolver
    let q2 := if METACD_LB_ENABLED g then
        grid_task_queue_register q1 (guint_of_gint g.lb_refresh_delay)
          Task._task_reload_lbpool Udata.lbpool
      else q1
    let q3 := grid_task_queue_register q2 g.nsinfo_refresh_delay
      Task._task_reload_srvtypes Udata.null
    let q4 := grid_task_queue_register q3 g.nsinfo_refresh_delay
      Task._task_reload_nsinfo Udata.lbpool
    let g1 : Globals :=
      { g with
        nsname := some nsname
        nsinfo := nsinfo
        dispatcher := some dispatcher
        server := some server
        resolver := resolver
        lbpool := some lbpool
        admin_gtq := some q4 }
    let g2 := run_tasks lib env.fired g1
    (true, { g2 with
      server := g2.server.map (fun srv => { srv with endpoints := srv.endpoints ++ [argv0] }) })
  | _ => (false, g)

/-- The tasks of the queue `admin_gtq`, none when there is no queue. -/
def Globals.tasks (g : Globals) : List grid_task_s :=
  match g.admin_gtq with
  | none => []
  | some q => q.tasks

/-! ## A concrete run -/

/-- The state after `grid_main_configure` on `127.0.0.1:6000 NS1`, from the
initial variables, with a resolver created and no task fired. -/
def configured_NS1 : Globals :=
  (grid_main_configure metautils ⟨some ⟨0, 0, 0, 0⟩, []⟩
    ["127.0.0.1:6000".toList, "NS1".toList] Globals.initial).2

/-- A start-up where the three library calls succeed. -/
def startup_ok : ActionEnv where
  network_server_open_servers := none
  grid_task_queue_run := .ok ⟨1⟩
  network_server_run := none

/-- A start-up where the sockets cannot be opened. -/
def startup_bind_fails : ActionEnv where
  network_server_open_servers := some ⟨98, "bind".toList⟩
  grid_task_queue_run := .ok ⟨1⟩
  network_server_run := none

/-- A start-up where the maintenance thread cannot be started. -/
def startup_thread_fails : ActionEnv where
  network_server_open_servers := none
  grid_task_queue_run := .error ⟨11, "thread".toList⟩
  network_server_run := none

/-- The state after `grid_main_action` returned from a successful start-up
of `configured_NS1`. -/
def running_NS1 : Globals := (grid_main_action startup_ok configured_NS1 0).2.1

/-! ## String lemmas -/

theorem strcmp_eq_zero_iff (a b : CStr) : strcmp a b = 0 ↔ a = b := by
  induction a generalizing b with
  | nil => cases b <;> simp [strcmp]
  | cons x xs ih =>
    cases b with
    | nil => simp [strcmp]
    | cons y ys =>
      by_cases hxy : x = y
      · simp [strcmp, hxy, ih]
      · by_cases hlt : x.toNat < y.toNat <;> simp [strcmp, hxy, hlt]

theorem strncmp_length_eq_zero_iff (str p : CStr) :
    strncmp str p p.length = 0 ↔ p <+: str := by
  induction p generalizing str with
  | nil => simp [strncmp]
  | cons y ys ih =>
    cases str with
    | nil => simp [strncmp]
    | cons x xs =>
      by_cases hxy : x = y
      · subst hxy
        simp [strncmp, ih, List.cons_prefix_cons]
      · have hyx : ¬ y = x := fun h => hxy h.symm
        by_cases hlt : x.toNat < y.toNat <;>
          simp [strncmp, hxy, hyx, hlt, List.cons_prefix_cons]

theorem g_str_has_prefix_iff (str p : CStr) :
    ( g_str_has_prefix str p) = true ↔ p <+: str := by
  unfold g_str_has_prefix strlen
  by_cases hlen : str.length < p.length
  · simp only [hlen, if_true]
    constructor
    · intro h; cases h
    · intro h
      have := h.length_le
      omega
  · simp [hlen, strncmp_length_eq_zero_iff]

/-! ## The dispatcher -/

theorem handler_action_scan_skip {Rp ρ : Type} (nh : Rp → ρ)
    (rq : http_request_s) (rp : Rp) (path : CStr)
    (pre rest : List (action_s Rp ρ))
    (hpre : ∀ q ∈ pre, ¬ q.pfx <+: path) :
    handler_action_scan nh rq rp path (pre ++ rest) =
      handler_action_scan nh rq rp path rest := by
  induction pre with
  | nil => rfl
  | cons q qs ih =>
    have hq : ( g_str_has_prefix path q.pfx) = false := by
      have := hpre q (List.mem_cons_self _ _)
      rw [← g_str_has_prefix_iff] at this
      simpa using this
    simp only [List.cons_append, handler_action_scan, hq]
    exact ih (fun r hr => hpre r (List.mem_cons_of_mem _ hr))

/-- C1. Whatever the route table and the request URI: when the table is
`pre ++ r :: post`, the URI without its leading character is `r.pfx ++ suffix`
and no route of `pre` has a prefix that this path starts with, then
`handler_action` is the call of `r`'s hook, on the request, the reply context
and exactly `suffix`. The hooks and what they produce are arbitrary, so no
other hook (of `pre` or of `post`) contributes to the result. -/
theorem handler_action_first_match {Rp ρ : Type}
    (pre post : List (action_s Rp ρ)) (r : action_s Rp ρ) (nh : Rp → ρ)
    (c : Char) (suffix : CStr) (rp : Rp)
    (hpre : ∀ q ∈ pre, ¬ q.pfx <+: r.pfx ++ suffix) :
    handler_action (pre ++ r :: post) nh ⟨c :: (r.pfx ++ suffix)⟩ rp =
      some (r.hook ⟨c :: (r.pfx ++ suffix)⟩ rp suffix) := by
  have hr : ( g_str_has_prefix (r.pfx ++ suffix) r.pfx) = true :=
    (g_str_has_prefix_iff _ _).2 (List.prefix_append _ _)
  simp only [handler_action]
  rw [handler_action_scan_skip nh _ rp _ pre (r :: post) hpre]
  simp [handler_action_scan, hr, strlen]

/-- C1, on the two tables of the claim: with the routes `ab/`, `a/` and the
path `ab/x` the hook of `ab/` runs on `x`; with the program's table and the
path `cs/status`, `action_conscience` runs on `status`. -/
theorem handler_action_first_match_witness :
    handler_action [recording_route "ab/", recording_route "a/"]
        (fun _ => Invocation.no_handler) ⟨"/ab/x".toList⟩ () =
      some (Invocation.handler "ab/" "x".toList) ∧
    handler_action (actions recording_hooks)
        (fun _ => Invocation.no_handler) ⟨"/cs/status".toList⟩ () =
      some (Invocation.handler "action_conscience" "status".toList) :=
  ⟨handler_action_first_match [] [recording_route "a/"] (recording_route "ab/")
      (fun _ => Invocation.no_handler) '/' "x".toList () (by simp),
   handler_action_first_match
      [⟨"lb/sl/".toList, recording_hooks.action_loadbalancing⟩,
       ⟨"m2/".toList, recording_hooks.action_meta2⟩]
      [⟨"dir/".toList, recording_hooks.action_directory⟩,
       ⟨"cache/".toList, recording_hooks.action_cache⟩]
      ⟨"cs/".toList, recording_hooks.action_conscience⟩
      (fun _ => Invocation.no_handler) '/' "status".toList () (by decide)⟩

/-- C2. With the program's table: when the URI without its leading character
starts with none of `lb/sl/`, `m2/`, `cs/`, `dir/`, `cache/`, the result of
`handler_action` is `_reply_no_handler (rp)`, whatever the five hooks are. -/
theorem handler_action_no_match {Rp ρ : Type} (h : ActionHooks Rp ρ)
    (nh : Rp → ρ) (c : Char) (path : CStr) (rp : Rp)
    (hno : ∀ p ∈ ["lb/sl/", "m2/", "cs/", "dir/", "cache/"], ¬ p.toList <+: path) :
    handler_action (actions h) nh ⟨c :: path⟩ rp = some (nh rp) := by
  have hall : ∀ q ∈ actions h, ¬ q.pfx <+: path := by
    intro q hq
    simp only [actions, List.mem_cons, List.mem_singleton, List.not_mem_nil,
      or_false] at hq
    rcases hq with rfl | rfl | rfl | rfl | rfl
    · exact hno "lb/sl/" (by simp)
    · exact hno "m2/" (by simp)
    · exact hno "cs/" (by simp)
    · exact hno "dir/" (by simp)
    · exact hno "cache/" (by simp)
  have hskip := handler_action_scan_skip nh ⟨c :: path⟩ rp path (actions h) [] hall
  rw [List.append_nil] at hskip
  show some (handler_action_scan nh ⟨c :: path⟩ rp path (actions h)) = some (nh rp)
  rw [hskip]
  rfl

/-- C2, on the path `xx/y`: no hook is recorded, the result is the
no-handler reply. -/
theorem handler_action_no_match_witness :
    handler_action (actions recording_hooks) (fun _ => Invocation.no_handler)
        ⟨"/xx/y".toList⟩ () = some Invocation.no_handler :=
  handler_action_no_match recording_hooks (fun _ => Invocation.no_handler)
    '/' "xx/y".toList () (by decide)

/-! ## The configuration cache -/

theorem validate_srvtype_scan_eq (n : CStr) (arr : List CStr) (rc : Bool) :
    validate_srvtype_scan n arr rc = (rc || decide (n ∈ arr)) := by
  induction arr generalizing rc with
  | nil => simp [validate_srvtype_scan]
  | cons p ps ih =>
    cases rc with
    | true => simp [validate_srvtype_scan]
    | false =>
      simp only [validate_srvtype_scan, Bool.false_eq_true, if_false, ih,
        Bool.false_or, List.mem_cons]
      by_cases hp : p = n
      · subst hp
        simp [(strcmp_eq_zero_iff p p).2 rfl]
      · have hne : ¬ strcmp p n = 0 := fun h => hp ((strcmp_eq_zero_iff p n).1 h)
        have hnp : ¬ n = p := fun h => hp h.symm
        simp [hne, hnp]

theorem reload_srvtypes_foldl (rs : List srvtypes_fetch) (g : Globals) :
    (rs.foldl (fun acc r => _task_reload_srvtypes r acc) g).srvtypes =
      match rs.reverse.find? (fun r => r.err.isNone) with
      | none => g.srvtypes
      | some r => some r.l := by
  induction rs using List.reverseRecOn with
  | nil => rfl
  | append_singleton rs r ih =>
    rw [List.foldl_append, List.reverse_append]
    simp only [List.foldl_cons, List.foldl_nil, List.reverse_cons, List.reverse_nil,
      List.nil_append, List.singleton_append, List.find?_cons]
    cases herr : r.err with
    | none => simp [_task_reload_srvtypes, herr, metautils_list_to_array]
    | some e => simpa [_task_reload_srvtypes, herr] using ih

/-- C3. From a state with no service-type set stored, after any sequence
`rs` of runs of `_task_reload_srvtypes` (each with what the fetch returned,
an error or a list of names), `validate_srvtype x` is false when no run of
the sequence was free of error, and otherwise is true exactly when `x` is
an element of the list returned by the last run that was free of error. -/
theorem validate_srvtype_last_success (g : Globals) (hg : g.srvtypes = none)
    (rs : List srvtypes_fetch) (x : CStr) :
    validate_srvtype (rs.foldl (fun acc r => _task_reload_srvtypes r acc) g) x =
      match rs.reverse.find? (fun r => r.err.isNone) with
      | none => false
      | some r => decide (x ∈ r.l) := by
  have h := reload_srvtypes_foldl rs g
  unfold validate_srvtype
  rw [h]
  cases rs.reverse.find? (fun r => r.err.isNone) with
  | none => simp [hg]
  | some r => simp [validate_srvtype_scan_eq]

/-- C3, on the sequence of the claim: a successful refresh with `meta2`,
`rawx`, then two failed ones; `meta2` is valid, `rdir` is not. Before any
refresh nothing is valid. -/
theorem validate_srvtype_last_success_witness :
    validate_srvtype
      ([⟨["meta2".toList, "rawx".toList], none⟩, ⟨[], some ⟨500, "down".toList⟩⟩,
        ⟨["rdir".toList], some ⟨500, "down".toList⟩⟩].foldl
        (fun acc r => _task_reload_srvtypes r acc) Globals.initial)
      "meta2".toList = true ∧
    validate_srvtype
      ([⟨["meta2".toList, "rawx".toList], none⟩, ⟨[], some ⟨500, "down".toList⟩⟩,
        ⟨["rdir".toList], some ⟨500, "down".toList⟩⟩].foldl
        (fun acc r => _task_reload_srvtypes r acc) Globals.initial)
      "rdir".toList = false ∧
    validate_srvtype
      ([⟨["meta2".toList], some ⟨500, "down".toList⟩⟩].foldl
        (fun acc r => _task_reload_srvtypes r acc) Globals.initial)
      "meta2".toList = false :=
  ⟨(validate_srvtype_last_success Globals.initial rfl _ _).trans (by decide),
   (validate_srvtype_last_success Globals.initial rfl _ _).trans (by decide),
   (validate_srvtype_last_success Globals.initial rfl _ _).trans (by decide)⟩

/-- C4. A failed fetch leaves every file-scope variable as it was: this holds
for `_task_reload_nsinfo` when `get_namespace_info` returns NULL, and for
`_task_reload_srvtypes` when `list_namespace_service_types` sets the error
(whatever list it returns beside it). In particular the stored descriptor and
the stored set are those of before. -/
theorem reload_failure_keeps_state (lib : Library) (g : Globals)
    (l : List CStr) (e : GError) :
    _task_reload_nsinfo lib none g = g ∧
    _task_reload_srvtypes ⟨l, some e⟩ g = g ∧
    (_task_reload_nsinfo lib none g).nsinfo = g.nsinfo ∧
    (_task_reload_nsinfo lib none g).srvtypes = g.srvtypes ∧
    (_task_reload_srvtypes ⟨l, some e⟩ g).nsinfo = g.nsinfo ∧
    (_task_reload_srvtypes ⟨l, some e⟩ g).srvtypes = g.srvtypes :=
  ⟨rfl, rfl, rfl, rfl, rfl, rfl⟩

/-! ## Configuration -/

theorem run_task_nsname (lib : Library) (t : TaskRun) (g : Globals) :
    (run_task lib t g).nsname = g.nsname := by
  cases t with
  | expire_resolver => rfl
  | reload_lbpool _ _ => rfl
  | reload_srvtypes f =>
    simp only [run_task, _task_reload_srvtypes]
    cases f.err <;> rfl
  | reload_nsinfo f => cases f <;> rfl

theorem run_task_admin_gtq (lib : Library) (t : TaskRun) (g : Globals) :
    (run_task lib t g).admin_gtq = g.admin_gtq := by
  cases t with
  | expire_resolver => rfl
  | reload_lbpool _ _ => rfl
  | reload_srvtypes f =>
    simp only [run_task, _task_reload_srvtypes]
    cases f.err <;> rfl
  | reload_nsinfo f => cases f <;> rfl

theorem run_tasks_nsname (lib : Library) (ts : List TaskRun) (g : Globals) :
    (run_tasks lib ts g).nsname = g.nsname := by
  unfold run_tasks
  induction ts generalizing g with
  | nil => rfl
  | cons t ts ih => rw [List.foldl_cons, ih, run_task_nsname]

theorem run_tasks_admin_gtq (lib : Library) (ts : List TaskRun) (g : Globals) :
    (run_tasks lib ts g).admin_gtq = g.admin_gtq := by
  unfold run_tasks
  induction ts generalizing g with
  | nil => rfl
  | cons t ts ih => rw [List.foldl_cons, ih, run_task_admin_gtq]

theorem grid_main_configure_nsname (lib : Library) (env : ConfigureEnv)
    (argv0 argv1 : CStr) (g : Globals) :
    (grid_main_configure lib env [argv0, argv1] g).2.nsname =
      some (lib.metautils_strlcpy_physical_ns argv1 argv1 (strlen argv1 + 1)) := by
  simp only [grid_main_configure, run_tasks_nsname]

theorem grid_main_configure_tasks (lib : Library) (env : ConfigureEnv)
    (argv0 argv1 : CStr) (g : Globals) :
    (grid_main_configure lib env [argv0, argv1] g).2.tasks =
      [⟨1, Task._task_expire_resolver, Udata.resolver⟩] ++
      (if 0 ≤ g.lb_refresh_delay then
        [⟨guint_of_gint g.lb_refresh_delay, Task._task_reload_lbpool, Udata.lbpool⟩]
       else []) ++
      [⟨g.nsinfo_refresh_delay, Task._task_reload_srvtypes, Udata.null⟩,
       ⟨g.nsinfo_refresh_delay, Task._task_reload_nsinfo, Udata.lbpool⟩] := by
  simp only [grid_main_configure, Globals.tasks, run_tasks_admin_gtq,
    METACD_LB_ENABLED, grid_task_queue_register, grid_task_queue_create]
  by_cases h : 0 ≤ g.lb_refresh_delay <;> simp [h]

/-- C5. After `grid_main_configure` on the arguments `addr`, `ns`, and after
any sequence `ts` of task runs (refreshes that succeed or fail, resolver and
pool runs), `validate_namespace x` is true exactly when `x` is, byte for
byte, the name that `grid_main_configure` stored in `nsname` from `ns` (the
content that `metautils_strlcpy_physical_ns` left in the copy of `ns`). With
the namespace `NS1`: `NS1` is valid and `ns1` is not, before and after a
failed namespace refresh and a successful service-type refresh. -/
theorem validate_namespace_exact (lib : Library) (env : ConfigureEnv)
    (addr ns : CStr) (g : Globals) (ts : List TaskRun) (x : CStr) :
    validate_namespace
        (run_tasks lib ts (grid_main_configure lib env [addr, ns] g).2) x =
      some (decide
        (x = lib.metautils_strlcpy_physical_ns ns ns (strlen ns + 1))) ∧
    validate_namespace
        (grid_main_configure metautils ⟨none, []⟩
          ["127.0.0.1:6000".toList, "NS1".toList] Globals.initial).2
        "NS1".toList = some true ∧
    validate_namespace
        (grid_main_configure metautils ⟨none, []⟩
          ["127.0.0.1:6000".toList, "NS1".toList] Globals.initial).2
        "ns1".toList = some false ∧
    validate_namespace
        (run_tasks metautils
          [TaskRun.reload_nsinfo none,
           TaskRun.reload_srvtypes ⟨["meta2".toList, "rawx".toList], none⟩]
          (grid_main_configure metautils ⟨none, []⟩
            ["127.0.0.1:6000".toList, "NS1".toList] Globals.initial).2)
        "NS1".toList = some true := by
  refine ⟨?_, by decide, by decide, by decide⟩
  unfold validate_namespace
  rw [run_tasks_nsname, grid_main_configure_nsname]
  by_cases hx : x = lib.metautils_strlcpy_physical_ns ns ns (strlen ns + 1)
  · simp [hx, (strcmp_eq_zero_iff _ _).2 rfl]
  · have hne : ¬ strcmp x
        (lib.metautils_strlcpy_physical_ns ns ns (strlen ns + 1)) = 0 :=
      fun h => hx ((strcmp_eq_zero_iff _ _).1 h)
    simp [hx, hne]

/-- C6, as stated, fails: with `LbRefresh` set to 0 (and everything else at
its default), no load-balancer task with the interval 10 is in the queue
after `grid_main_configure`; the one registered has the interval 0. -/
theorem lb_refresh_zero_is_not_default :
    ¬ (∃ t ∈ (grid_main_configure metautils ⟨none, []⟩
          ["127.0.0.1:6000".toList, "NS1".toList]
          { Globals.initial with lb_refresh_delay := 0 }).2.tasks,
        t.run = Task._task_reload_lbpool ∧ t.period = 10) ∧
    (grid_main_configure metautils ⟨none, []⟩
          ["127.0.0.1:6000".toList, "NS1".toList]
          { Globals.initial with lb_refresh_delay := 0 }).2.tasks.filter
        (fun t => t.run = Task._task_reload_lbpool) =
      [⟨0, Task._task_reload_lbpool, Udata.lbpool⟩] := by
  decide

/-- C6, amended. With `lb_refresh_delay` set to 0, whatever the other
variables, `grid_main_configure` registers the load-balancer task once, with
the interval 0: the value configured is the interval registered. The
interval 10 is registered when the variable is left at its initial value. -/
theorem lb_refresh_zero_registers_zero (lib : Library) (env : ConfigureEnv)
    (addr ns : CStr) (g : Globals) :
    (grid_main_configure lib env [addr, ns]
        { g with lb_refresh_delay := 0 }).2.tasks.filter
        (fun t => t.run = Task._task_reload_lbpool) =
      [⟨0, Task._task_reload_lbpool, Udata.lbpool⟩] ∧
    (grid_main_configure lib env [addr, ns] Globals.initial).2.tasks.filter
        (fun t => t.run = Task._task_reload_lbpool) =
      [⟨10, Task._task_reload_lbpool, Udata.lbpool⟩] := by
  constructor
  · rw [grid_main_configure_tasks]
    simp [List.filter, guint_of_gint]
  · rw [grid_main_configure_tasks]
    simp [List.filter, guint_of_gint, Globals.initial]

/-- C7. Whatever the configured interval `lb_refresh_delay`, after
`grid_main_configure` (on its two arguments) the number of tasks of the
queue that run `_task_reload_lbpool` is 1 when the interval is not negative
and 0 when it is negative; so such a task is in the queue exactly when the
interval is not negative. -/
theorem lbpool_task_registered_iff (lib : Library) (env : ConfigureEnv)
    (addr ns : CStr) (g : Globals) :
    (grid_main_configure lib env [addr, ns] g).2.tasks.countP
        (fun t => t.run = Task._task_reload_lbpool) =
      (if 0 ≤ g.lb_refresh_delay then 1 else 0) ∧
    ((∃ t ∈ (grid_main_configure lib env [addr, ns] g).2.tasks,
        t.run = Task._task_reload_lbpool) ↔ 0 ≤ g.lb_refresh_delay) := by
  rw [grid_main_configure_tasks]
  by_cases h : 0 ≤ g.lb_refresh_delay <;> simp [h, List.countP_cons]

/-! ## Start-up and shutdown -/

/-- C8. When the maintenance thread was started (`admin_thread` is not NULL),
the calls of `grid_main_specific_fini` begin with `grid_task_queue_stop` and
then `g_thread_join`; neither occurs again; and every call that releases or
destroys something (the queue, the server's sockets and resources, the
dispatcher, the load-balancer pool, the resolver, the descriptor, the name)
stands at a later position than both. The pool and the resolver, when they
exist, are destroyed in that later part. -/
theorem fini_joins_before_release (lib : Library) (g : Globals)
    (h : g.admin_thread.isSome = true) :
    ∃ rest, (grid_main_specific_fini lib g).1 =
        Op.grid_task_queue_stop :: Op.g_thread_join :: rest ∧
      (∀ op ∈ rest, op ≠ Op.grid_task_queue_stop ∧ op ≠ Op.g_thread_join) ∧
      (∀ (i : Nat) (op : Op), (grid_main_specific_fini lib g).1[i]? = some op →
        op.releases = true → 2 ≤ i) ∧
      (g.server.isSome = true → Op.network_server_clean ∈ rest) ∧
      (g.lbpool.isSome = true → Op.grid_lbpool_destroy ∈ rest) ∧
      (g.resolver.isSome = true → Op.hc_resolver_destroy ∈ rest) := by
  refine ⟨((grid_main_specific_fini lib g).1).drop 2, ?_, ?_, ?_, ?_, ?_, ?_⟩
  · simp [grid_main_specific_fini, h]
  · simp only [grid_main_specific_fini, h, if_true, List.cons_append,
      List.nil_append, List.drop_succ_cons, List.drop_zero]
    generalize g.admin_gtq.isSome = b2
    generalize g.server.isSome = b3
    generalize g.dispatcher.isSome = b4
    generalize g.lbpool.isSome = b5
    generalize g.resolver.isSome = b6
    revert b2 b3 b4 b5 b6
    decide
  · intro i op hi hrel
    match i, hi with
    | 0, hi =>
      simp [grid_main_specific_fini, h] at hi
      subst hi; simp [Op.releases] at hrel
    | 1, hi =>
      simp [grid_main_specific_fini, h] at hi
      subst hi; simp [Op.releases] at hrel
    | n + 2, _ => omega
  · intro hs; simp [grid_main_specific_fini, h, hs]
  · intro hs; simp [grid_main_specific_fini, h, hs]
  · intro hs; simp [grid_main_specific_fini, h, hs]

/-- C8, on the state of a started gateway: the thread is there, and the
calls of shutdown are, in order, stop, join, and then the releases. -/
theorem fini_joins_before_release_witness :
    running_NS1.admin_thread.isSome = true ∧
    (grid_main_specific_fini metautils running_NS1).1 =
      [Op.grid_task_queue_stop, Op.g_thread_join, Op.grid_task_queue_destroy,
       Op.network_server_close_servers, Op.network_server_stop,
       Op.network_server_clean, Op.http_request_dispatcher_clean,
       Op.grid_lbpool_destroy, Op.hc_resolver_destroy,
       Op.namespace_info_clear, Op.metautils_str_clean] ∧
    ∃ rest, (grid_main_specific_fini metautils running_NS1).1 =
        Op.grid_task_queue_stop :: Op.g_thread_join :: rest ∧
      (∀ op ∈ rest, op ≠ Op.grid_task_queue_stop ∧ op ≠ Op.g_thread_join) ∧
      (∀ (i : Nat) (op : Op),
        (grid_main_specific_fini metautils running_NS1).1[i]? = some op →
        op.releases = true → 2 ≤ i) ∧
      (running_NS1.server.isSome = true → Op.network_server_clean ∈ rest) ∧
      (running_NS1.lbpool.isSome = true → Op.grid_lbpool_destroy ∈ rest) ∧
      (running_NS1.resolver.isSome = true → Op.hc_resolver_destroy ∈ rest) :=
  ⟨by decide, by decide,
    fini_joins_before_release metautils running_NS1 (by decide)⟩

/-- C9. In `grid_main_action`: `network_server_run` is called only when
`network_server_open_servers` returned no error and `grid_task_queue_run`
returned a thread. When opening the sockets fails, the calls are
`network_server_open_servers` and `grid_main_set_status (1)` and nothing
else; when it succeeds and the thread cannot be started, the calls are
`network_server_open_servers`, `grid_task_queue_run` and
`grid_main_set_status (1)` and nothing else; in both cases the status is 1.
When the three calls succeed no status is set: it is the one of before. A
failing run loop sets the status to 1 as well. -/
theorem grid_main_action_startup (env : ActionEnv) (g : Globals) (status : Int) :
    (Op.network_server_run ∈ (grid_main_action env g status).1 →
      env.network_server_open_servers = none ∧
      ∃ th, env.grid_task_queue_run = .ok th) ∧
    (∀ e, env.network_server_open_servers = some e →
      (grid_main_action env g status).1 =
        [Op.network_server_open_servers, Op.grid_main_set_status 1] ∧
      (grid_main_action env g status).2.2 = 1) ∧
    (∀ e, env.network_server_open_servers = none →
      env.grid_task_queue_run = .error e →
      (grid_main_action env g status).1 =
        [Op.network_server_open_servers, Op.grid_task_queue_run,
         Op.grid_main_set_status 1] ∧
      (grid_main_action env g status).2.2 = 1) ∧
    (∀ th, env.network_server_open_servers = none →
      env.grid_task_queue_run = .ok th → env.network_server_run = none →
      (grid_main_action env g status).1 =
        [Op.network_server_open_servers, Op.grid_task_queue_run,
         Op.network_server_run] ∧
      (grid_main_action env g status).2.2 = status) ∧
    (∀ th e, env.network_server_open_servers = none →
      env.grid_task_queue_run = .ok th → env.network_server_run = some e →
      (grid_main_action env g status).2.2 = 1) := by
  obtain ⟨o, q, r⟩ := env
  refine ⟨?_, ?_, ?_, ?_, ?_⟩
  · intro hmem
    cases o with
    | some e => simp [grid_main_action, _main_error] at hmem
    | none =>
      cases q with
      | error e => simp [grid_main_action, _main_error] at hmem
      | ok th => exact ⟨rfl, th, rfl⟩
  · intro e he
    simp only at he
    subst he
    exact ⟨rfl, rfl⟩
  · intro e ho hq
    simp only at ho hq
    subst ho; subst hq
    exact ⟨rfl, rfl⟩
  · intro th ho hq hr
    simp only at ho hq hr
    subst ho; subst hq; subst hr
    exact ⟨rfl, rfl⟩
  · intro th e ho hq hr
    simp only at ho hq hr
    subst ho; subst hq; subst hr
    rfl

/-- C9, on three start-ups of the configured gateway, the status being 0
before: a failed bind and a failed thread start end with the status 1 and
without the run loop; a start-up without failure leaves the status 0. -/
theorem grid_main_action_startup_witness :
    ((grid_main_action startup_bind_fails configured_NS1 0).1 =
        [Op.network_server_open_servers, Op.grid_main_set_status 1] ∧
      (grid_main_action startup_bind_fails configured_NS1 0).2.2 = 1) ∧
    ((grid_main_action startup_thread_fails configured_NS1 0).1 =
        [Op.network_server_open_servers, Op.grid_task_queue_run,
         Op.grid_main_set_status 1] ∧
      (grid_main_action startup_thread_fails configured_NS1 0).2.2 = 1) ∧
    ((grid_main_action startup_ok configured_NS1 0).1 =
        [Op.network_server_open_servers, Op.grid_task_queue_run,
         Op.network_server_run] ∧
      (grid_main_action startup_ok configured_NS1 0).2.2 = 0) :=
  ⟨(grid_main_action_startup startup_bind_fails configured_NS1 0).2.1 _ rfl,
   (grid_main_action_startup startup_thread_fails configured_NS1 0).2.2.1 _ rfl rfl,
   (grid_main_action_startup startup_ok configured_NS1 0).2.2.2.1 _ rfl rfl rfl⟩

end MetacdHttp
